import Mathlib

/-!
Shallow embedding of the Upload Task Orchestrator of firestarter-gui
(src/contexts/UploadContext.tsx, the variant with throughput estimation).

JavaScript numbers are modelled as rationals (ℚ): every arithmetic
operation the listener performs (addition, subtraction, multiplication,
division by a guarded-positive quantity, comparison, min/max) is exact on
the values that occur, and a rational is always finite, so the
Number.isFinite / isFinite guards of the source are identically true and
noted as such where they occur.  Time (performance.now(), milliseconds) is
passed in explicitly as a parameter.  The React setTasks updater is
modelled as a pure state-transition function on the provider state
(task list, per-task runtime refs, and the log of dispatched
upload:completed events).
-/

namespace Firestarter

/-- Task status: 'idle' | 'uploading' | 'success' | 'error' | 'cancelled'. -/
inductive UStatus where
  | idle
  | uploading
  | success
  | error
  | cancelled
deriving DecidableEq, Repr

/-- interface UploadTask (UploadContext.tsx lines 13-25).  Optional fields
(speedBps, etaSec, message, error) are Option. -/
structure UploadTask where
  id : String
  filePath : String
  remoteFileName : String
  status : UStatus
  progress : ℚ
  uploadedSize : ℚ
  totalSize : ℚ
  speedBps : Option ℚ := none
  etaSec : Option ℚ := none
  message : Option String := none
  error : Option String := none
deriving DecidableEq, Repr

/-- type RuntimeRef (lines 77-85): per-task mutable estimator state. -/
structure RuntimeRef where
  cancelled : Bool
  accBytes : ℚ
  lastSeenBytes : ℚ
  lastTs : ℚ
  emaBps : Option ℚ
  ring : List (ℚ × ℚ)
  warmSamples : Nat
deriving DecidableEq, Repr

/-- The structured shape of an upload_progress payload (lines 47-58);
every field may be absent. -/
structure ObjPayload where
  id : Option String := none
  percent : Option ℚ := none
  uploaded : Option ℚ := none
  total : Option ℚ := none
  completed : Option Bool := none
  status : Option String := none
  message : Option String := none
  error : Option String := none
deriving DecidableEq, Repr

/-- UploadProgressPayload: a bare number or a structured object. -/
inductive UploadPayload where
  | num (p : ℚ)
  | obj (e : ObjPayload)
deriving DecidableEq, Repr

/-- detail of the dispatched upload:completed CustomEvent (lines 245-250). -/
structure CompletedDetail where
  id : String
  filePath : String
  name : String
  total : ℚ
deriving DecidableEq, Repr

def WINDOW_SEC : ℚ := 10
def MIN_DT : ℚ := 8 / 100
def WARM_MIN_SAMPLES : Nat := 3
def WARM_MIN_BYTES : ℚ := 1 * 1024 * 1024
def FREEZE_REMAIN : ℚ := 2 * 1024 * 1024
def EMA_ALPHA : ℚ := 1 / 10

/-- function clampPercent (lines 61-64).  The Number.isFinite guard is
identically true for rationals, so only the clamping remains. -/
def clampPercent (p : ℚ) : ℚ :=
  if p < 0 then 0 else if p > 100 then 100 else p

/-- the percent fallback inside normalizePercent (lines 71-73). -/
def percentFallback (p : Option ℚ) : Option ℚ :=
  match p with
  | some q => some (clampPercent (if q ≤ 1 then q * 100 else q))
  | none => none

/-- function normalizePercent (lines 67-75): prefer uploaded/total when
total is positive, otherwise fall back to the reported percent. -/
def normalizePercent (p uploaded total : Option ℚ) : Option ℚ :=
  match uploaded, total with
  | some u, some t => if 0 < t then some (clampPercent (u / t * 100)) else percentFallback p
  | some _, none => percentFallback p
  | none, _ => percentFallback p

/-- The ByteAccumulator core (lines 169-174): detect a per-part counter
reset and fold the previous lastSeenBytes into accBytes.  Returns the new
(accBytes, lastSeenBytes) pair. -/
def accumStep (acc last uploaded : ℚ) : ℚ × ℚ :=
  if uploaded < last then (acc + last, uploaded) else (acc, uploaded)

/-- Lines 167-177: the whole uploaded-handling block.  Returns
(accBytes, lastSeenBytes, cumUploaded): when the event carries a
non-negative uploaded number the accumulator advances and the stored
uploadedSize is raised to the new cumulative via max; otherwise
everything is untouched. -/
def accumApply (acc last : ℚ) (uploaded : Option ℚ) (curUp : ℚ) : ℚ × ℚ × ℚ :=
  match uploaded with
  | some u =>
      if 0 ≤ u then
        let al := accumStep acc last u
        (al.1, al.2, max curUp (al.1 + al.2))
      else (acc, last, curUp)
  | none => (acc, last, curUp)

/-- Line 164-166: a positive reported total replaces the stored one. -/
def totalBytesOf (total : Option ℚ) (curTotal : ℚ) : ℚ :=
  match total with
  | some t => if 0 < t then t else curTotal
  | none => curTotal

/-- Line 186: EMA update with alpha = 0.1 (first sample seeds the EMA). -/
def emaUpdate (ema : Option ℚ) (inst : ℚ) : ℚ :=
  match ema with
  | none => inst
  | some e => e * (1 - EMA_ALPHA) + inst * EMA_ALPHA

/-- Line 192: drop ring entries strictly older than the cutoff (shift
from the front while the head is older). -/
def pruneRing (ring : List (ℚ × ℚ)) (cutoff : ℚ) : List (ℚ × ℚ) :=
  match ring with
  | [] => []
  | x :: xs => if x.1 < cutoff then pruneRing xs cutoff else x :: xs

/-- Lines 194-200: the 10-second-window average, defined when the ring
holds at least two samples. -/
def windowAvg (ring : List (ℚ × ℚ)) : Option ℚ :=
  match ring with
  | [] => none
  | [_] => none
  | x :: y :: rest =>
      let last := (y :: rest).getLastD y
      let dT := max (1 / 2) (last.1 - x.1)
      let dB := max 0 (last.2 - x.2)
      some (dB / dT)

/-- Lines 203-205: window average if truthy-positive, else EMA if
truthy-positive, else none (isFinite is identically true on ℚ). -/
def chooseEstimator (avg ema : Option ℚ) : Option ℚ :=
  match avg with
  | some a => if 0 < a then some a else
      match ema with
      | some e => if 0 < e then some e else none
      | none => none
  | none =>
      match ema with
      | some e => if 0 < e then some e else none
      | none => none

/-- Lines 210-223: ETA computation.  Only when warmed-up, the estimator
is truthy (non-null and non-zero) and totalBytes > 0: clamp the
estimator to [1 KiB/s, 10 GiB/s], eta = remaining / clamped, and freeze
eta to 1 second near the finish. -/
def computeEta (warmedUp : Bool) (estimator : Option ℚ) (totalBytes cumUploaded : ℚ) : Option ℚ :=
  if warmedUp then
    match estimator with
    | some est =>
        if est ≠ 0 ∧ 0 < totalBytes then
          let s := min (max est 1024) (10 * 1024 * 1024 * 1024)
          let remain := max 0 (totalBytes - cumUploaded)
          let pct := if 0 < totalBytes then cumUploaded / totalBytes else 0
          if remain < FREEZE_REMAIN ∨ (995 / 1000 : ℚ) ≤ pct then some 1
          else some (remain / s)
        else none
    | none => none
  else none

/-- JS truthiness of an optional string (an empty string is falsy): used
for the id at line 141 and the error at line 238. -/
def strTruthy (s : Option String) : Bool :=
  match s with
  | some v => v ≠ ""
  | none => false

/-- Lines 164-259: process a structured payload against the targeted task
and its runtime ref.  Returns the new task snapshot, the new ref, and the
upload:completed detail when one is dispatched (lines 241-256). -/
def applyObj (now : ℚ) (e : ObjPayload) (cur : UploadTask) (r : RuntimeRef) :
    UploadTask × RuntimeRef × Option CompletedDetail :=
  let totalBytes := totalBytesOf e.total cur.totalSize
  let acc3 := accumApply r.accBytes r.lastSeenBytes e.uploaded cur.uploadedSize
  let cumUploaded := acc3.2.2
  let dt := max MIN_DT ((now - r.lastTs) / 1000)
  let effDelta := max 0 (cumUploaded - cur.uploadedSize)
  let warmSamples := r.warmSamples + 1
  let instBps := effDelta / dt
  let emaBps := emaUpdate r.emaBps instBps
  let tSec := now / 1000
  let ring := pruneRing (r.ring ++ [(tSec, cumUploaded)]) (tSec - WINDOW_SEC)
  let avgBps := windowAvg ring
  let estimator := chooseEstimator avgBps (some emaBps)
  let warmedUp : Bool := decide (WARM_MIN_SAMPLES ≤ warmSamples) && decide (WARM_MIN_BYTES ≤ cumUploaded)
  let etaSec := computeEta warmedUp estimator totalBytes cumUploaded
  let viewPercent := normalizePercent e.percent (some cumUploaded) (some totalBytes)
  let isCompletedFlag : Bool := decide (e.completed = some true) || decide (e.status = some "completed")
  let doneByBytes : Bool := decide (0 < totalBytes) && decide (totalBytes ≤ cumUploaded)
  let status :=
    if strTruthy e.error then UStatus.error
    else if isCompletedFlag || doneByBytes then UStatus.success
    else cur.status
  let nextTask : UploadTask :=
    { cur with
      progress := viewPercent.getD cur.progress
      uploadedSize := cumUploaded
      totalSize := totalBytes
      speedBps := some emaBps
      etaSec := match etaSec with | some q => some q | none => cur.etaSec
      message := match e.message with | some m => some m | none => cur.message
      error := match e.error with | some m => some m | none => cur.error
      status := status }
  let dispatch : Option CompletedDetail :=
    if nextTask.status = UStatus.success ∧ cur.status ≠ UStatus.success then
      some { id := nextTask.id, filePath := nextTask.filePath,
             name := nextTask.remoteFileName, total := nextTask.totalSize }
    else none
  let nextRef : RuntimeRef :=
    { r with accBytes := acc3.1, lastSeenBytes := acc3.2.1, lastTs := now,
             emaBps := some emaBps, ring := ring, warmSamples := warmSamples }
  (nextTask, nextRef, dispatch)

/-- a fresh RuntimeRef (lines 152-161 and 281-289). -/
def freshRef (now : ℚ) : RuntimeRef :=
  { cancelled := false, accBytes := 0, lastSeenBytes := 0, lastTs := now,
    emaBps := none, ring := [], warmSamples := 0 }

/-- association-list lookup for refs.current. -/
def lookupRef (refs : List (String × RuntimeRef)) (i : String) : Option RuntimeRef :=
  match refs with
  | [] => none
  | (j, r) :: rest => if j = i then some r else lookupRef rest i

/-- association-list store for refs.current (replace or append). -/
def setRef (refs : List (String × RuntimeRef)) (i : String) (r : RuntimeRef) :
    List (String × RuntimeRef) :=
  match refs with
  | [] => [(i, r)]
  | (j, s) :: rest => if j = i then (i, r) :: rest else (j, s) :: setRef rest i r

/-- findIndex: index of the first element satisfying the predicate. -/
def findIdxQ (p : UploadTask → Bool) : List UploadTask → Option Nat
  | [] => none
  | t :: ts =>
      if p t then some 0 else
        match findIdxQ p ts with
        | some i => some (i + 1)
        | none => none

/-- Lines 124-126 and 143-146: the index of the last task whose status is
'uploading' (the source computes it as
prev.length - 1 - reverse(prev).findIndex(uploading)). -/
def findLastUploadingIdx : List UploadTask → Option Nat
  | [] => none
  | t :: ts =>
      match findLastUploadingIdx ts with
      | some i => some (i + 1)
      | none => if t.status = UStatus.uploading then some 0 else none

/-- The provider state visible to this model: the task list, the per-task
runtime refs, and the log of dispatched upload:completed events. -/
structure ProviderState where
  tasks : List UploadTask
  refs : List (String × RuntimeRef)
  completedEvents : List CompletedDetail
deriving DecidableEq, Repr

def initialState : ProviderState :=
  { tasks := [], refs := [], completedEvents := [] }

/-- Line 141-146: target-task selection for a structured payload: an
event with a truthy id targets the task with exactly that id (first
match), otherwise the last 'uploading' task. -/
def targetIdx (e : ObjPayload) (tasks : List UploadTask) : Option Nat :=
  if strTruthy e.id then
    findIdxQ (fun t => decide (some t.id = e.id)) tasks
  else findLastUploadingIdx tasks

/-- The upload_progress listener body (lines 122-261) as one state
transition.  A bare number updates only the progress of the last
'uploading' task; a structured payload runs applyObj on the targeted
task.  Events for a task whose ref has cancelled = true are dropped. -/
def applyEvent (now : ℚ) (payload : UploadPayload) (st : ProviderState) : ProviderState :=
  match payload with
  | .num p =>
      match findLastUploadingIdx st.tasks with
      | none => st
      | some pos =>
          match st.tasks.get? pos with
          | none => st
          | some cur =>
              match lookupRef st.refs cur.id with
              | some r =>
                  if r.cancelled then st
                  else
                    let upd := { cur with progress := clampPercent (if p ≤ 1 then p * 100 else p) }
                    { st with tasks := st.tasks.set pos upd }
              | none =>
                  let upd := { cur with progress := clampPercent (if p ≤ 1 then p * 100 else p) }
                  { st with tasks := st.tasks.set pos upd }
  | .obj e =>
      match targetIdx e st.tasks with
      | none => st
      | some pos =>
          match st.tasks.get? pos with
          | none => st
          | some cur =>
              match lookupRef st.refs cur.id with
              | some r =>
                  if r.cancelled then st
                  else
                    let res := applyObj now e cur r
                    { tasks := st.tasks.set pos res.1
                      refs := setRef st.refs cur.id res.2.1
                      completedEvents := st.completedEvents ++
                        (match res.2.2 with | some d => [d] | none => []) }
              | none =>
                  let res := applyObj now e cur (freshRef now)
                  { tasks := st.tasks.set pos res.1
                    refs := setRef st.refs cur.id res.2.1
                    completedEvents := st.completedEvents ++
                      (match res.2.2 with | some d => [d] | none => []) }

/-- startUpload (lines 273-289), up to the point where the task is
enqueued and its ref created; the engine invocation and its error paths
are outside this model.  The id is passed in (the source derives it from
the file path and the clock). -/
def startUpload (now : ℚ) (i filePath remoteFileName : String) (st : ProviderState) : ProviderState :=
  { st with
    tasks := st.tasks ++
      [{ id := i, filePath := filePath, remoteFileName := remoteFileName,
         status := UStatus.uploading, progress := 0, uploadedSize := 0, totalSize := 0 }]
    refs := setRef st.refs i (freshRef now) }

/-- cancelUpload (lines 316-323): set the ref's cancelled flag when the
ref exists, and force every task with that id to status 'cancelled'. -/
def cancelUpload (i : String) (st : ProviderState) : ProviderState :=
  { st with
    refs :=
      (match lookupRef st.refs i with
       | some r => setRef st.refs i { r with cancelled := true }
       | none => st.refs)
    tasks := st.tasks.map (fun t =>
      if t.id = i then { t with status := UStatus.cancelled, message := some "Upload cancelled by user" }
      else t) }

/-- resetTasks (lines 102-105). -/
def resetTasks (_st : ProviderState) : ProviderState := initialState

/-- The list of cumulative values returned by the ByteAccumulator over a
sequence of raw uploaded samples, starting from a given
(accBytes, lastSeenBytes) pair. -/
def accumCumulatives (s : ℚ × ℚ) : List ℚ → List ℚ
  | [] => []
  | u :: us =>
      let al := accumStep s.1 s.2 u
      (al.1 + al.2) :: accumCumulatives al us

/-! ### Helper lemmas -/

theorem lookupRef_setRef_self (refs : List (String × RuntimeRef)) (i : String) (r : RuntimeRef) :
    lookupRef (setRef refs i r) i = some r := by
  induction refs with
  | nil => simp [setRef, lookupRef]
  | cons hd tl ih =>
      obtain ⟨j, s⟩ := hd
      by_cases h : j = i
      · simp [setRef, lookupRef, h]
      · simp [setRef, lookupRef, h, ih]

theorem setRef_self_of_lookup (refs : List (String × RuntimeRef)) (i : String) (r : RuntimeRef)
    (h : lookupRef refs i = some r) : setRef refs i r = refs := by
  induction refs with
  | nil => simp [lookupRef] at h
  | cons hd tl ih =>
      obtain ⟨j, s⟩ := hd
      by_cases hj : j = i
      · simp [lookupRef, hj] at h
        simp [setRef, hj, h]
      · simp [lookupRef, hj] at h
        simp [setRef, hj, ih h]

theorem findIdxQ_spec (p : UploadTask → Bool) (ts : List UploadTask) :
    ∀ i, findIdxQ p ts = some i → ∃ t, ts[i]? = some t ∧ p t = true := by
  induction ts with
  | nil => intro i h; simp [findIdxQ] at h
  | cons hd tl ih =>
      intro i h
      by_cases hp : p hd
      · simp only [findIdxQ, hp, if_true, Option.some.injEq] at h
        exact ⟨hd, by simp [← h], hp⟩
      · rw [findIdxQ, if_neg hp] at h
        cases hrec : findIdxQ p tl with
        | none => rw [hrec] at h; exact absurd h (by simp)
        | some j =>
            rw [hrec] at h
            simp only [Option.some.injEq] at h
            obtain ⟨t, ht, hpt⟩ := ih j hrec
            refine ⟨t, ?_, hpt⟩
            simp only [← h]
            simpa using ht

theorem findLastUploadingIdx_none (ts : List UploadTask) :
    findLastUploadingIdx ts = none →
    ∀ (j : Nat) (t : UploadTask), ts[j]? = some t → t.status ≠ UStatus.uploading := by
  induction ts with
  | nil => intro _ j t ht; simp at ht
  | cons hd tl ih =>
      intro h j t ht
      cases hrec : findLastUploadingIdx tl with
      | some k => simp [findLastUploadingIdx, hrec] at h
      | none =>
          simp only [findLastUploadingIdx, hrec] at h
          by_cases hs : hd.status = UStatus.uploading
          · rw [if_pos hs] at h
            exact absurd h (by simp)
          · cases j with
            | zero =>
                simp only [List.getElem?_cons_zero, Option.some.injEq] at ht
                simpa [← ht] using hs
            | succ j' =>
                simp only [List.getElem?_cons_succ] at ht
                exact ih hrec j' t ht

theorem findLastUploadingIdx_spec (ts : List UploadTask) :
    ∀ i, findLastUploadingIdx ts = some i →
    ∃ t, ts[i]? = some t ∧ t.status = UStatus.uploading := by
  induction ts with
  | nil => intro i h; simp [findLastUploadingIdx] at h
  | cons hd tl ih =>
      intro i h
      cases hrec : findLastUploadingIdx tl with
      | some k =>
          simp only [findLastUploadingIdx, hrec, Option.some.injEq] at h
          obtain ⟨t, ht, hs⟩ := ih k hrec

          refine ⟨t, ?_, hs⟩
          simp only [← h]
          simpa using ht
      | none =>
          simp only [findLastUploadingIdx, hrec] at h
          by_cases hs : hd.status = UStatus.uploading
          · rw [if_pos hs] at h
            simp only [Option.some.injEq] at h
            exact ⟨hd, by simp [← h], hs⟩
          · rw [if_neg hs] at h
            exact absurd h (by simp)

theorem findLastUploadingIdx_last (ts : List UploadTask) :
    ∀ i, findLastUploadingIdx ts = some i →
    ∀ (j : Nat) (t : UploadTask), i < j → ts[j]? = some t → t.status ≠ UStatus.uploading := by
  induction ts with
  | nil => intro i h; simp [findLastUploadingIdx] at h
  | cons hd tl ih =>
      intro i h j t hij ht
      cases hrec : findLastUploadingIdx tl with
      | some k =>
          simp only [findLastUploadingIdx, hrec, Option.some.injEq] at h
          cases j with
          | zero => omega
          | succ j' =>
              simp only [List.getElem?_cons_succ] at ht
              have hk : k < j' := by omega
              exact ih k hrec j' t hk ht
      | none =>
          cases j with
          | zero => omega
          | succ j' =>
              simp only [List.getElem?_cons_succ] at ht
              exact findLastUploadingIdx_none tl hrec j' t ht

theorem accumApply_le (acc last : ℚ) (uploaded : Option ℚ) (curUp : ℚ) :
    curUp ≤ (accumApply acc last uploaded curUp).2.2 := by
  cases uploaded with
  | none => simp [accumApply]
  | some u =>
      by_cases hu : 0 ≤ u
      · simp [accumApply, hu, le_max_left]
      · simp [accumApply, hu]

theorem applyObj_uploadedSize (now : ℚ) (e : ObjPayload) (cur : UploadTask) (r : RuntimeRef) :
    (applyObj now e cur r).1.uploadedSize =
      (accumApply r.accBytes r.lastSeenBytes e.uploaded cur.uploadedSize).2.2 := by
  simp [applyObj]

theorem applyObj_totalSize (now : ℚ) (e : ObjPayload) (cur : UploadTask) (r : RuntimeRef) :
    (applyObj now e cur r).1.totalSize = totalBytesOf e.total cur.totalSize := by
  simp [applyObj]

theorem applyObj_progress (now : ℚ) (e : ObjPayload) (cur : UploadTask) (r : RuntimeRef) :
    (applyObj now e cur r).1.progress =
      (normalizePercent e.percent
        (some ((accumApply r.accBytes r.lastSeenBytes e.uploaded cur.uploadedSize).2.2))
        (some (totalBytesOf e.total cur.totalSize))).getD cur.progress := by
  simp [applyObj]

/-! ### Concrete runs used by counterexamples and witnesses -/

/-- One task started: id t1, file a.bin. -/
def runStart : ProviderState := startUpload 0 "t1" "a.bin" "a.bin" initialState

/-- A bare numeric event 0.8 on the single uploading task. -/
def bare1 : ProviderState := applyEvent 100 (.num (8 / 10)) runStart

/-- A subsequent bare numeric event 0.3 on the same task. -/
def bare2 : ProviderState := applyEvent 200 (.num (3 / 10)) bare1

/-- A terminal completed-by-bytes event: uploaded = total = 1000. -/
def comp1 : ProviderState :=
  applyEvent 100 (.obj { id := some "t1", uploaded := some 1000, total := some 1000 }) runStart

/-- The same terminal event fed a second time. -/
def comp2 : ProviderState :=
  applyEvent 200 (.obj { id := some "t1", uploaded := some 1000, total := some 1000 }) comp1

/-- An error event delivered to the already-successful task. -/
def demoted : ProviderState :=
  applyEvent 200 (.obj { id := some "t1", error := some "boom" }) comp1

/-- A completed event delivered after the error event. -/
def repromoted : ProviderState :=
  applyEvent 300 (.obj { id := some "t1", completed := some true }) demoted

/-- First event knows the total (1000) and 10 uploaded bytes. -/
def tot1 : ProviderState :=
  applyEvent 100 (.obj { id := some "t1", uploaded := some 10, total := some 1000 }) runStart

/-- Second event reports a smaller positive total (500). -/
def tot2 : ProviderState :=
  applyEvent 200 (.obj { id := some "t1", total := some 500 }) tot1

/-- A single structured event with 500000 uploaded bytes of a 1 GB file
(below the 1 MiB warm-up threshold, first sample). -/
def warm1 : ProviderState :=
  applyEvent 1000 (.obj { uploaded := some 500000, total := some 1000000000 }) runStart

def MiB : ℚ := 1024 * 1024

/-- Freeze-rule run: totalBytes = 100 MiB, three samples ending at
99.5 MiB uploaded (104333312 bytes). -/
def frz1 : ProviderState :=
  applyEvent 1000 (.obj { id := some "t1", uploaded := some (50 * MiB), total := some (100 * MiB) }) runStart

def frz2 : ProviderState :=
  applyEvent 2000 (.obj { id := some "t1", uploaded := some (80 * MiB) }) frz1

def frz3 : ProviderState :=
  applyEvent 3000 (.obj { id := some "t1", uploaded := some (104333312 : ℚ) }) frz2

/-- Two tasks started, the second one most recent; used for the bare
numeric frame property. -/
def twoTasks : ProviderState := startUpload 0 "t2" "b.bin" "b.bin" runStart

/-! ### C2 -/

/-- C2: the ByteAccumulator folds resets into a monotone cumulative count:
(1) the returned cumulative accumulatedBytes + lastSeenBytes never
decreases for non-negative raw samples; (2) on a reset (uploaded <
lastSeenBytes) the old lastSeenBytes is folded into accumulatedBytes and
lastSeenBytes becomes the new value; (3) otherwise only lastSeenBytes is
updated; (4) the stored uploadedSize becomes the max of its previous
value and the new cumulative, so it updates only when the cumulative is
at least the stored value; (5) the raw sequence [1000, 2000, 500, 1500]
from a fresh accumulator yields cumulatives [1000, 2000, 2500, 3500]. -/
theorem C2_byte_accumulator :
    (∀ a l u : ℚ, 0 ≤ u → a + l ≤ (accumStep a l u).1 + (accumStep a l u).2) ∧
    (∀ a l u : ℚ, u < l → accumStep a l u = (a + l, u)) ∧
    (∀ a l u : ℚ, l ≤ u → accumStep a l u = (a, u)) ∧
    (∀ (now : ℚ) (e : ObjPayload) (cur : UploadTask) (r : RuntimeRef) (u : ℚ),
      e.uploaded = some u → 0 ≤ u →
      (applyObj now e cur r).1.uploadedSize =
        max cur.uploadedSize
          ((accumStep r.accBytes r.lastSeenBytes u).1 + (accumStep r.accBytes r.lastSeenBytes u).2)) ∧
    accumCumulatives (0, 0) [1000, 2000, 500, 1500] = [1000, 2000, 2500, 3500] := by
  refine ⟨?_, ?_, ?_, ?_, ?_⟩
  · intro a l u hu
    unfold accumStep
    by_cases h : u < l
    · rw [if_pos h]
      dsimp only
      linarith
    · rw [if_neg h]
      dsimp only
      linarith [not_lt.mp h]
  · intro a l u h
    simp [accumStep, h]
  · intro a l u h
    simp [accumStep, not_lt.mpr h]
  · intro now e cur r u hu h0
    rw [applyObj_uploadedSize]
    simp [accumApply, hu, h0]
  · norm_num [accumCumulatives, accumStep]

/-- C2 witness: the general parts instantiated at concrete inputs
(the reset sample 500 after lastSeenBytes 2000, and a concrete
applyObj call). -/
theorem C2_byte_accumulator_witness :
    (0 ≤ (500 : ℚ) ∧
      (2000 : ℚ) + 2000 ≤ (accumStep 2000 2000 500).1 + (accumStep 2000 2000 500).2) ∧
    ((500 : ℚ) < 2000 ∧ accumStep 2000 2000 500 = (4000, 500)) ∧
    ((2000 : ℚ) ≤ 2500 ∧ accumStep 2000 2500 2500 = (2000, 2500)) ∧
    (({ uploaded := some 500 } : ObjPayload).uploaded = some 500 ∧ 0 ≤ (500 : ℚ) ∧
      (applyObj 7 { uploaded := some 500 }
        { id := "w", filePath := "w", remoteFileName := "w", status := UStatus.uploading,
          progress := 0, uploadedSize := 0, totalSize := 0 }
        (freshRef 0)).1.uploadedSize =
        max (0 : ℚ) ((accumStep (freshRef 0).accBytes (freshRef 0).lastSeenBytes 500).1 +
          (accumStep (freshRef 0).accBytes (freshRef 0).lastSeenBytes 500).2)) := by
  obtain ⟨h1, h2, h3, h4, _⟩ := C2_byte_accumulator
  refine ⟨⟨by norm_num, h1 2000 2000 500 (by norm_num)⟩,
          ⟨by norm_num, ?_⟩,
          ⟨by norm_num, ?_⟩,
          ⟨rfl, by norm_num, ?_⟩⟩
  · have := h2 2000 2000 500 (by norm_num)
    rw [this]
    norm_num
  · have := h3 2000 2500 2500 (by norm_num)
    simpa using this
  · exact h4 7 { uploaded := some 500 }
      { id := "w", filePath := "w", remoteFileName := "w", status := UStatus.uploading,
        progress := 0, uploadedSize := 0, totalSize := 0 }
      (freshRef 0) 500 rfl (by norm_num)

/-! ### C7 -/

/-- C7 counterexample: after the stored totalSize is known positive
(1000), the progress event with total = 500 shrinks it to 500 while the
task is still uploading, refuting the claim that a known totalBytes
never shrinks. -/
theorem C7_totalBytes_counterexample :
    tot1.tasks.map (fun t => t.totalSize) = [1000] ∧
    tot2.tasks.map (fun t => t.totalSize) = [500] ∧
    tot2.tasks.map (fun t => t.status) = [UStatus.uploading] ∧
    (500 : ℚ) < 1000 := by
  norm_num +decide [tot2, tot1, runStart, startUpload, initialState, applyEvent,
    targetIdx, strTruthy, findIdxQ, findLastUploadingIdx, lookupRef, setRef,
    freshRef, applyObj, totalBytesOf, accumApply, accumStep, emaUpdate, pruneRing,
    windowAvg, chooseEstimator, computeEta, normalizePercent, percentFallback,
    clampPercent, MIN_DT, WINDOW_SEC, WARM_MIN_SAMPLES, WARM_MIN_BYTES,
    FREEZE_REMAIN, EMA_ALPHA]

/-- C7 amended: the stored totalSize is replaced by any positive reported
total (which may be smaller than the previous value); an absent or
non-positive reported total leaves it unchanged; and once positive the
stored totalSize stays positive. -/
theorem C7_totalBytes_update :
    (∀ (now : ℚ) (e : ObjPayload) (cur : UploadTask) (r : RuntimeRef),
      (applyObj now e cur r).1.totalSize = totalBytesOf e.total cur.totalSize) ∧
    (∀ curT : ℚ, totalBytesOf none curT = curT) ∧
    (∀ (v curT : ℚ), v ≤ 0 → totalBytesOf (some v) curT = curT) ∧
    (∀ (v curT : ℚ), 0 < v → totalBytesOf (some v) curT = v) ∧
    (∀ (o : Option ℚ) (curT : ℚ), 0 < curT → 0 < totalBytesOf o curT) := by
  refine ⟨applyObj_totalSize, ?_, ?_, ?_, ?_⟩
  · intro curT; rfl
  · intro v curT hv
    simp [totalBytesOf, not_lt.mpr hv]
  · intro v curT hv
    simp [totalBytesOf, hv]
  · intro o curT hc
    cases o with
    | none => simpa [totalBytesOf] using hc
    | some v =>
        by_cases hv : 0 < v
        · simp only [totalBytesOf, if_pos hv]
          exact hv
        · simp only [totalBytesOf, if_neg hv]
          exact hc

/-- C7 witness: the update rules applied at concrete inputs. -/
theorem C7_totalBytes_update_witness :
    ((-3 : ℚ) ≤ 0 ∧ totalBytesOf (some (-3)) 1000 = 1000) ∧
    ((0 : ℚ) < 500 ∧ totalBytesOf (some 500) 1000 = 500) ∧
    ((0 : ℚ) < 1000 ∧ 0 < totalBytesOf (some 500) 1000) := by
  obtain ⟨_, _, h3, h4, h5⟩ := C7_totalBytes_update
  exact ⟨⟨by norm_num, h3 (-3) 1000 (by norm_num)⟩,
         ⟨by norm_num, h4 500 1000 (by norm_num)⟩,
         ⟨by norm_num, h5 (some 500) 1000 (by norm_num)⟩⟩

/-! ### C8 -/

/-- C8: the progress normalizer: (1) when uploaded and a positive total
are both present the canonical percent is clamp(uploaded/total*100)
regardless of any reported percent; (2) otherwise a present percent is
multiplied by 100 when at most 1, used as-is when above 1, and clamped;
(3) with neither a byte ratio nor a percent the normalizer yields none;
(4) clampPercent lands in [0, 100]; (5) in the listener, when the
normalizer yields none the task's prior progress is kept, and when it
yields a value, that value is stored. -/
theorem C8_progress_normalizer :
    (∀ (p : Option ℚ) (u t : ℚ), 0 < t →
      normalizePercent p (some u) (some t) = some (clampPercent (u / t * 100))) ∧
    (∀ (q : ℚ) (u t : Option ℚ),
      (u = none ∨ t = none ∨ ∃ v, t = some v ∧ v ≤ 0) →
      normalizePercent (some q) u t = some (clampPercent (if q ≤ 1 then q * 100 else q))) ∧
    (∀ (u t : Option ℚ),
      (u = none ∨ t = none ∨ ∃ v, t = some v ∧ v ≤ 0) →
      normalizePercent none u t = none) ∧
    (∀ x : ℚ, 0 ≤ clampPercent x ∧ clampPercent x ≤ 100) ∧
    (∀ (now : ℚ) (e : ObjPayload) (cur : UploadTask) (r : RuntimeRef),
      (normalizePercent e.percent
          (some ((accumApply r.accBytes r.lastSeenBytes e.uploaded cur.uploadedSize).2.2))
          (some (totalBytesOf e.total cur.totalSize)) = none →
        (applyObj now e cur r).1.progress = cur.progress) ∧
      (∀ v : ℚ, normalizePercent e.percent
          (some ((accumApply r.accBytes r.lastSeenBytes e.uploaded cur.uploadedSize).2.2))
          (some (totalBytesOf e.total cur.totalSize)) = some v →
        (applyObj now e cur r).1.progress = v)) := by
  refine ⟨?_, ?_, ?_, ?_, ?_⟩
  · intro p u t ht
    simp [normalizePercent, ht]
  · intro q u t h
    rcases h with h | h | ⟨v, hv, hv0⟩
    · subst h
      cases t <;> simp [normalizePercent, percentFallback]
    · subst h
      cases u <;> simp [normalizePercent, percentFallback]
    · subst hv
      cases u <;> simp [normalizePercent, percentFallback, not_lt.mpr hv0]
  · intro u t h
    rcases h with h | h | ⟨v, hv, hv0⟩
    · subst h
      cases t <;> simp [normalizePercent, percentFallback]
    · subst h
      cases u <;> simp [normalizePercent, percentFallback]
    · subst hv
      cases u <;> simp [normalizePercent, percentFallback, not_lt.mpr hv0]
  · intro x
    unfold clampPercent
    by_cases h0 : x < 0
    · simp [h0]
    · by_cases h100 : x > 100
      · simp [h0, h100]
      · simp only [h0, h100, if_false]
        exact ⟨not_lt.mp h0, not_lt.mp h100⟩
  · intro now e cur r
    constructor
    · intro h
      rw [applyObj_progress, h]
      rfl
    · intro v h
      rw [applyObj_progress, h]
      rfl

/-- C8 witness: the normalizer rules applied at concrete inputs:
bytes authoritative over percent (50/200 with stale percent 80 gives 25),
fractional percent 0.5 becomes 50, percent 250 clamps to 100, and the
no-signal case keeps the prior progress in the listener. -/
theorem C8_progress_normalizer_witness :
    ((0 : ℚ) < 200 ∧ normalizePercent (some 80) (some 50) (some 200) = some (clampPercent (50 / 200 * 100))) ∧
    (normalizePercent (some (1 / 2)) none none = some (clampPercent (1 / 2 * 100))) ∧
    (normalizePercent (some 250) none (some 0) = some (clampPercent 250)) ∧
    (normalizePercent none none none = none) ∧
    ((applyObj 5 ({ } : ObjPayload)
        { id := "w", filePath := "w", remoteFileName := "w", status := UStatus.uploading,
          progress := 37, uploadedSize := 0, totalSize := 0 }
        (freshRef 0)).1.progress = 37) := by
  obtain ⟨h1, h2, h3, _, h5⟩ := C8_progress_normalizer
  refine ⟨⟨by norm_num, h1 (some 80) 50 200 (by norm_num)⟩, ?_, ?_, ?_, ?_⟩
  · have := h2 (1 / 2) none none (Or.inl rfl)
    rw [this]
    norm_num
  · have := h2 250 none (some 0) (Or.inr (Or.inr ⟨0, rfl, le_refl 0⟩))
    rw [this]
    norm_num
  · exact h3 none none (Or.inl rfl)
  · refine (h5 5 ({ } : ObjPayload)
      { id := "w", filePath := "w", remoteFileName := "w", status := UStatus.uploading,
        progress := 37, uploadedSize := 0, totalSize := 0 } (freshRef 0)).1 ?_
    norm_num [normalizePercent, percentFallback, accumApply, totalBytesOf, freshRef]

/-! ### C3 -/

/-- C3 counterexample: after a single structured event (sampleCount = 1 <
3 and cumulative bytes 500000 < 1 MiB) the task snapshot already exposes
speedBps = some 500000, refuting the claim that the exposed speed
remains unset under the warm-up gate (only etaSec is gated). -/
theorem C3_warmup_counterexample :
    warm1.tasks.map (fun t => t.speedBps) = [some 500000] ∧
    warm1.tasks.map (fun t => t.uploadedSize) = [500000] ∧
    warm1.tasks.map (fun t => t.etaSec) = [none] ∧
    (lookupRef warm1.refs "t1").map (fun r => r.warmSamples) = some 1 ∧
    1 < WARM_MIN_SAMPLES ∧ (500000 : ℚ) < WARM_MIN_BYTES := by
  norm_num +decide [warm1, runStart, startUpload, initialState, applyEvent,
    targetIdx, strTruthy, findIdxQ, findLastUploadingIdx, lookupRef, setRef,
    freshRef, applyObj, totalBytesOf, accumApply, accumStep, emaUpdate, pruneRing,
    windowAvg, chooseEstimator, computeEta, normalizePercent, percentFallback,
    clampPercent, MIN_DT, WINDOW_SEC, WARM_MIN_SAMPLES, WARM_MIN_BYTES,
    FREEZE_REMAIN, EMA_ALPHA]

/-- C3 amended: under the warm-up gate (fewer than 3 samples, or a
cumulative below 1 MiB) the exposed etaSec is left unchanged by the
event — in particular it stays unset if it was never set; the exposed
speedBps, in contrast, is populated by every structured event regardless
of warm-up. -/
theorem C3_eta_warmup_gate :
    (∀ (now : ℚ) (e : ObjPayload) (cur : UploadTask) (r : RuntimeRef),
      (r.warmSamples + 1 < WARM_MIN_SAMPLES ∨
        (accumApply r.accBytes r.lastSeenBytes e.uploaded cur.uploadedSize).2.2 < WARM_MIN_BYTES) →
      (applyObj now e cur r).1.etaSec = cur.etaSec) ∧
    (∀ (now : ℚ) (e : ObjPayload) (cur : UploadTask) (r : RuntimeRef),
      (applyObj now e cur r).1.speedBps ≠ none) := by
  constructor
  · intro now e cur r h
    have hw : (decide (WARM_MIN_SAMPLES ≤ r.warmSamples + 1) &&
        decide (WARM_MIN_BYTES ≤ (accumApply r.accBytes r.lastSeenBytes e.uploaded cur.uploadedSize).2.2)) = false := by
      rcases h with h | h
      · have hn : ¬ WARM_MIN_SAMPLES ≤ r.warmSamples + 1 := by omega
        simp [hn]
      · have hn : ¬ WARM_MIN_BYTES ≤ (accumApply r.accBytes r.lastSeenBytes e.uploaded cur.uploadedSize).2.2 :=
          not_le.mpr h
        simp [hn]
    simp only [applyObj, hw]
    simp [computeEta]
  · intro now e cur r
    simp [applyObj]

/-- C3 witness: a first sample on a fresh ref satisfies the gate
hypothesis (1 < 3) and leaves etaSec at its prior value (none), while
speedBps is set. -/
theorem C3_eta_warmup_gate_witness :
    ((freshRef 0).warmSamples + 1 < WARM_MIN_SAMPLES ∧
      (applyObj 1000 { uploaded := some 500000, total := some 1000000000 }
        { id := "w", filePath := "w", remoteFileName := "w", status := UStatus.uploading,
          progress := 0, uploadedSize := 0, totalSize := 0 }
        (freshRef 0)).1.etaSec =
      ({ id := "w", filePath := "w", remoteFileName := "w", status := UStatus.uploading,
         progress := 0, uploadedSize := 0, totalSize := 0 } : UploadTask).etaSec) ∧
    (applyObj 1000 { uploaded := some 500000, total := some 1000000000 }
        { id := "w", filePath := "w", remoteFileName := "w", status := UStatus.uploading,
          progress := 0, uploadedSize := 0, totalSize := 0 }
        (freshRef 0)).1.speedBps ≠ none := by
  refine ⟨⟨?_, C3_eta_warmup_gate.1 1000 _ _ _ (Or.inl ?_)⟩, C3_eta_warmup_gate.2 1000 _ _ _⟩
  · norm_num [freshRef, WARM_MIN_SAMPLES]
  · norm_num [freshRef, WARM_MIN_SAMPLES]

/-! ### C9 -/

/-- C9: the freeze rule: whenever the ETA branch runs (warmed up, a
truthy positive estimator, totalBytes > 0), if the remaining bytes are
below 2 MiB or the completed fraction is at least 0.995, the computed
eta is exactly 1 second; and on the concrete spec instance (totalBytes =
100 MiB, uploadedBytes = 99.5 MiB reached over three samples) the task
snapshot exposes etaSec = 1. -/
theorem C9_freeze_rule :
    (∀ est total cum : ℚ, 0 < est → 0 < total →
      (total - cum < FREEZE_REMAIN ∨ (995 / 1000 : ℚ) ≤ cum / total) →
      computeEta true (some est) total cum = some 1) ∧
    frz3.tasks.map (fun t => t.etaSec) = [some 1] ∧
    frz3.tasks.map (fun t => t.totalSize) = [100 * MiB] ∧
    frz3.tasks.map (fun t => t.uploadedSize) = [104333312] := by
  constructor
  · intro est total cum h1 h2 h3
    have hne : est ≠ 0 := ne_of_gt h1
    have hfrz : max 0 (total - cum) < FREEZE_REMAIN ∨
        (995 / 1000 : ℚ) ≤ (if 0 < total then cum / total else 0) := by
      rcases h3 with h | h
      · exact Or.inl (max_lt (by norm_num [FREEZE_REMAIN]) h)
      · rw [if_pos h2]
        exact Or.inr h
    simp only [computeEta, if_true]
    rw [if_pos (⟨hne, h2⟩ : est ≠ 0 ∧ 0 < total)]
    rw [if_pos hfrz]
  · refine ⟨?_, ?_, ?_⟩ <;>
    norm_num +decide [frz3, frz2, frz1, MiB, runStart, startUpload, initialState,
      applyEvent, targetIdx, strTruthy, findIdxQ, findLastUploadingIdx, lookupRef,
      setRef, freshRef, applyObj, totalBytesOf, accumApply, accumStep, emaUpdate,
      pruneRing, windowAvg, chooseEstimator, computeEta, normalizePercent,
      percentFallback, clampPercent, MIN_DT, WINDOW_SEC, WARM_MIN_SAMPLES,
      WARM_MIN_BYTES, FREEZE_REMAIN, EMA_ALPHA]

/-- C9 witness: the freeze rule at the spec's instance: total = 100 MiB,
cumulative = 99.5 MiB (remaining 0.5 MiB < 2 MiB), a positive estimator
of 5000 B/s, eta = 1. -/
theorem C9_freeze_rule_witness :
    (0 : ℚ) < 5000 ∧ (0 : ℚ) < 100 * (1024 * 1024) ∧
    (100 * (1024 * 1024) - 104333312 : ℚ) < FREEZE_REMAIN ∧
    computeEta true (some 5000) (100 * (1024 * 1024)) 104333312 = some 1 := by
  refine ⟨by norm_num, by norm_num, by norm_num [FREEZE_REMAIN], ?_⟩
  exact C9_freeze_rule.1 5000 (100 * (1024 * 1024)) 104333312 (by norm_num) (by norm_num)
    (Or.inl (by norm_num [FREEZE_REMAIN]))

/-! ### C4 -/

/-- a dispatched optional is non-none exactly when its guard holds. -/
theorem dispatchGuard_iff (c : Prop) [Decidable c] (x : CompletedDetail) :
    ((if c then some x else none) ≠ none) ↔ c := by
  split <;> simp_all

/-- C4 counterexample: the completion notification is not raised at most
once per task: after the Uploading → Success transition (one event in
the log), an error event demotes the task to Error, and a subsequent
completed event transitions Error → Success and dispatches a second
upload:completed event for the same task, refuting both "exactly once"
and "precisely at the Uploading → Success transition". -/
theorem C4_completion_counterexample :
    comp1.completedEvents.length = 1 ∧
    comp1.tasks.map (fun t => t.status) = [UStatus.success] ∧
    demoted.completedEvents.length = 1 ∧
    demoted.tasks.map (fun t => t.status) = [UStatus.error] ∧
    repromoted.completedEvents.length = 2 ∧
    repromoted.tasks.map (fun t => t.status) = [UStatus.success] ∧
    repromoted.completedEvents.map (fun d => d.id) = ["t1", "t1"] := by
  norm_num +decide [repromoted, demoted, comp1, runStart, startUpload, initialState,
    applyEvent, targetIdx, strTruthy, findIdxQ, findLastUploadingIdx, lookupRef,
    setRef, freshRef, applyObj, totalBytesOf, accumApply, accumStep, emaUpdate,
    pruneRing, windowAvg, chooseEstimator, computeEta, normalizePercent,
    percentFallback, clampPercent, MIN_DT, WINDOW_SEC, WARM_MIN_SAMPLES,
    WARM_MIN_BYTES, FREEZE_REMAIN, EMA_ALPHA]

/-- C4 amended: the upload:completed notification is dispatched exactly
at events that move the targeted task from a non-Success status to
Success (so duplicates of a terminal completed event, and any event that
finds the task already in Success, dispatch nothing — feeding the same
terminal event twice leaves exactly one logged notification); but it is
not at most once per task, since an error event can demote a Success
task and a later completed event re-dispatches. -/
theorem C4_completion_dispatch :
    (∀ (now : ℚ) (e : ObjPayload) (cur : UploadTask) (r : RuntimeRef),
      (applyObj now e cur r).2.2 ≠ none ↔
        ((applyObj now e cur r).1.status = UStatus.success ∧ cur.status ≠ UStatus.success)) ∧
    comp2.completedEvents.length = 1 ∧
    comp2.tasks.map (fun t => t.status) = [UStatus.success] := by
  refine ⟨?_, ?_⟩
  · intro now e cur r
    simp only [applyObj]
    exact dispatchGuard_iff _ _
  · constructor <;>
    norm_num +decide [comp2, comp1, runStart, startUpload, initialState,
      applyEvent, targetIdx, strTruthy, findIdxQ, findLastUploadingIdx, lookupRef,
      setRef, freshRef, applyObj, totalBytesOf, accumApply, accumStep, emaUpdate,
      pruneRing, windowAvg, chooseEstimator, computeEta, normalizePercent,
      percentFallback, clampPercent, MIN_DT, WINDOW_SEC, WARM_MIN_SAMPLES,
      WARM_MIN_BYTES, FREEZE_REMAIN, EMA_ALPHA]

/-! ### C5 -/

/-- C5 counterexample: Success is not terminal: a later error event moves
the successful task to Error, and cancelUpload on the successful task
moves it to Cancelled — both transitions out of a supposedly terminal
state. -/
theorem C5_state_machine_counterexample :
    comp1.tasks.map (fun t => t.status) = [UStatus.success] ∧
    demoted.tasks.map (fun t => t.status) = [UStatus.error] ∧
    (cancelUpload "t1" comp1).tasks.map (fun t => t.status) = [UStatus.cancelled] := by
  norm_num +decide [demoted, comp1, runStart, startUpload, initialState, cancelUpload,
    applyEvent, targetIdx, strTruthy, findIdxQ, findLastUploadingIdx, lookupRef,
    setRef, freshRef, applyObj, totalBytesOf, accumApply, accumStep, emaUpdate,
    pruneRing, windowAvg, chooseEstimator, computeEta, normalizePercent,
    percentFallback, clampPercent, MIN_DT, WINDOW_SEC, WARM_MIN_SAMPLES,
    WARM_MIN_BYTES, FREEZE_REMAIN, EMA_ALPHA]

/-- C5 amended: (1) a progress event never moves a task into Uploading;
(2) a progress event only ever sets the status to Error, to Success, or
leaves it unchanged; (3) a task whose runtime ref has the cancelled flag
consumes no structured event (the state is returned untouched), so
Cancelled reached via cancelUpload is terminal for events; (4)
cancelUpload forces status Cancelled for its id from any status,
terminal ones included. -/
theorem C5_state_machine :
    (∀ (now : ℚ) (e : ObjPayload) (cur : UploadTask) (r : RuntimeRef),
      (applyObj now e cur r).1.status = UStatus.uploading → cur.status = UStatus.uploading) ∧
    (∀ (now : ℚ) (e : ObjPayload) (cur : UploadTask) (r : RuntimeRef),
      (applyObj now e cur r).1.status = UStatus.error ∨
      (applyObj now e cur r).1.status = UStatus.success ∨
      (applyObj now e cur r).1.status = cur.status) ∧
    (∀ (st : ProviderState) (now : ℚ) (e : ObjPayload) (pos : Nat) (cur : UploadTask) (r : RuntimeRef),
      targetIdx e st.tasks = some pos → st.tasks.get? pos = some cur →
      lookupRef st.refs cur.id = some r → r.cancelled = true →
      applyEvent now (.obj e) st = st) ∧
    (∀ (st : ProviderState) (i : String) (t : UploadTask),
      t ∈ (cancelUpload i st).tasks → t.id = i → t.status = UStatus.cancelled) := by
  refine ⟨?_, ?_, ?_, ?_⟩
  · intro now e cur r h
    simp only [applyObj] at h
    split at h
    · exact absurd h (by simp)
    · split at h
      · exact absurd h (by simp)
      · exact h
  · intro now e cur r
    simp only [applyObj]
    split
    · exact Or.inl rfl
    · split
      · exact Or.inr (Or.inl rfl)
      · exact Or.inr (Or.inr rfl)
  · intro st now e pos cur r ht hg hl hc
    simp only [applyEvent, ht, hg, hl, hc]
    simp
  · intro st i t hmem hid
    simp only [cancelUpload, List.mem_map] at hmem
    obtain ⟨s, _, hfs⟩ := hmem
    by_cases h : s.id = i
    · rw [if_pos h] at hfs
      rw [← hfs]
    · rw [if_neg h] at hfs
      rw [← hfs] at hid
      exact absurd hid h

/-- C5 witness: the parts instantiated concretely: an empty structured
event keeps a fresh task Uploading (so the premise of part 1 holds); a
structured event for a cancelled task is a no-op on the whole provider
state; and the task rewritten by cancelUpload has status Cancelled. -/
theorem C5_state_machine_witness :
    ((applyObj 5 ({ } : ObjPayload)
        { id := "w", filePath := "w", remoteFileName := "w", status := UStatus.uploading,
          progress := 0, uploadedSize := 0, totalSize := 0 }
        (freshRef 0)).1.status = UStatus.uploading ∧
      ({ id := "w", filePath := "w", remoteFileName := "w", status := UStatus.uploading,
         progress := 0, uploadedSize := 0, totalSize := 0 } : UploadTask).status = UStatus.uploading) ∧
    (applyEvent 9 (.obj { id := some "t1", uploaded := some 77777 }) (cancelUpload "t1" runStart) =
      cancelUpload "t1" runStart) ∧
    (∀ t ∈ (cancelUpload "t1" runStart).tasks, t.id = "t1" → t.status = UStatus.cancelled) := by
  have hstat : (applyObj 5 ({ } : ObjPayload)
      { id := "w", filePath := "w", remoteFileName := "w", status := UStatus.uploading,
        progress := 0, uploadedSize := 0, totalSize := 0 }
      (freshRef 0)).1.status = UStatus.uploading := by
    norm_num +decide [applyObj, totalBytesOf, accumApply, accumStep, emaUpdate,
      pruneRing, windowAvg, chooseEstimator, computeEta, normalizePercent,
      percentFallback, clampPercent, strTruthy, freshRef, MIN_DT, WINDOW_SEC,
      WARM_MIN_SAMPLES, WARM_MIN_BYTES, FREEZE_REMAIN, EMA_ALPHA]
  refine ⟨⟨hstat, C5_state_machine.1 5 _ _ _ hstat⟩, ?_, ?_⟩
  · refine C5_state_machine.2.2.1 (cancelUpload "t1" runStart) 9
      { id := some "t1", uploaded := some 77777 } 0
      { id := "t1", filePath := "a.bin", remoteFileName := "a.bin",
        status := UStatus.cancelled, progress := 0, uploadedSize := 0, totalSize := 0,
        message := some "Upload cancelled by user" }
      { cancelled := true, accBytes := 0, lastSeenBytes := 0, lastTs := 0,
        emaBps := none, ring := [], warmSamples := 0 } ?_ ?_ ?_ rfl
    · norm_num +decide [cancelUpload, runStart, startUpload, initialState, targetIdx,
        strTruthy, findIdxQ, lookupRef, setRef, freshRef]
    · norm_num +decide [cancelUpload, runStart, startUpload, initialState, setRef, freshRef]
    · norm_num +decide [cancelUpload, runStart, startUpload, initialState, lookupRef,
        setRef, freshRef]
  · intro t hmem hid
    exact C5_state_machine.2.2.2 (cancelUpload "t1" runStart) "t1" t hmem hid

/-! ### C6 -/

/-- the per-task rewrite performed by cancelUpload is idempotent on the
task list. -/
theorem cancel_map_idem (i : String) (ts : List UploadTask) :
    ((ts.map (fun t => if t.id = i then
        { t with status := UStatus.cancelled, message := some "Upload cancelled by user" }
      else t)).map (fun t => if t.id = i then
        { t with status := UStatus.cancelled, message := some "Upload cancelled by user" }
      else t)) =
    ts.map (fun t => if t.id = i then
        { t with status := UStatus.cancelled, message := some "Upload cancelled by user" }
      else t) := by
  induction ts with
  | nil => rfl
  | cons hd tl ih =>
      simp only [List.map_cons, List.cons.injEq]
      refine ⟨?_, ih⟩
      by_cases h : hd.id = i
      · simp [h]
      · simp [h]

/-- C6: after cancelUpload(id) on a state whose refs know the id: the
task with that id is Cancelled with the cancellation message; every
further structured event carrying that id leaves the whole provider
state (tasks, refs, event log) unchanged; and a second cancelUpload(id)
is a no-op producing an equal state. -/
theorem C6_cancellation_suppression (st : ProviderState) (i : String) (r : RuntimeRef)
    (hr : lookupRef st.refs i = some r) :
    (∀ t ∈ (cancelUpload i st).tasks, t.id = i →
      t.status = UStatus.cancelled ∧ t.message = some "Upload cancelled by user") ∧
    (∀ (now : ℚ) (e : ObjPayload), e.id = some i → i ≠ "" →
      applyEvent now (.obj e) (cancelUpload i st) = cancelUpload i st) ∧
    cancelUpload i (cancelUpload i st) = cancelUpload i st := by
  have hlook : lookupRef (cancelUpload i st).refs i = some { r with cancelled := true } := by
    simp only [cancelUpload, hr]
    exact lookupRef_setRef_self st.refs i _
  refine ⟨?_, ?_, ?_⟩
  · intro t hmem hid
    simp only [cancelUpload, List.mem_map] at hmem
    obtain ⟨s, _, hfs⟩ := hmem
    by_cases h : s.id = i
    · rw [if_pos h] at hfs
      rw [← hfs]
      exact ⟨rfl, rfl⟩
    · rw [if_neg h] at hfs
      rw [← hfs] at hid
      exact absurd hid h
  · intro now e hei hne
    have htid : strTruthy e.id = true := by simp [strTruthy, hei, hne]
    simp only [applyEvent, targetIdx, htid, if_true]
    cases hf : findIdxQ (fun t => decide (some t.id = e.id)) (cancelUpload i st).tasks with
    | none => rfl
    | some pos =>
        obtain ⟨t, htpos, hpt⟩ := findIdxQ_spec _ _ pos hf
        have htid2 : t.id = i := by
          have h2 := of_decide_eq_true hpt
          rw [hei] at h2
          exact Option.some.inj h2
        have hget : (cancelUpload i st).tasks.get? pos = some t := by
          rw [List.get?_eq_getElem?]
          exact htpos
        simp only [hget, htid2, hlook]
        simp
  · have hlook2 : lookupRef (setRef st.refs i { r with cancelled := true }) i =
        some { r with cancelled := true } := lookupRef_setRef_self st.refs i _
    simp only [cancelUpload, hr, hlook2, ProviderState.mk.injEq]
    refine ⟨cancel_map_idem i st.tasks, ?_, trivial⟩
    have hself := setRef_self_of_lookup (setRef st.refs i { r with cancelled := true }) i
      { r with cancelled := true } (lookupRef_setRef_self st.refs i _)
    simpa using hself

/-- C6 witness: the suppression instantiated on the concrete one-task
state: cancelling t1 and then feeding a structured event for t1 leaves
the state equal, and a second cancel is a no-op. -/
theorem C6_cancellation_suppression_witness :
    lookupRef runStart.refs "t1" = some (freshRef 0) ∧
    (applyEvent 9 (.obj { id := some "t1", percent := some 55 }) (cancelUpload "t1" runStart) =
      cancelUpload "t1" runStart) ∧
    cancelUpload "t1" (cancelUpload "t1" runStart) = cancelUpload "t1" runStart := by
  have hr : lookupRef runStart.refs "t1" = some (freshRef 0) := by
    norm_num +decide [runStart, startUpload, initialState, lookupRef, setRef]
  obtain ⟨_, hb, hc⟩ := C6_cancellation_suppression runStart "t1" (freshRef 0) hr
  exact ⟨hr, hb 9 { id := some "t1", percent := some 55 } rfl (by decide), hc⟩

/-! ### C1 -/

/-- every event either leaves the task list unchanged or replaces one
task by one whose uploadedSize is at least the old one. -/
theorem applyEvent_tasks_shape (now : ℚ) (payload : UploadPayload) (st : ProviderState) :
    (applyEvent now payload st).tasks = st.tasks ∨
    ∃ (pos : Nat) (cur u : UploadTask), st.tasks.get? pos = some cur ∧
      (applyEvent now payload st).tasks = st.tasks.set pos u ∧
      cur.uploadedSize ≤ u.uploadedSize := by
  cases payload with
  | num p =>
      cases hf : findLastUploadingIdx st.tasks with
      | none =>
          left
          simp only [applyEvent, hf]
      | some pos =>
          cases hg : st.tasks.get? pos with
          | none =>
              left
              simp only [applyEvent, hf, hg]
          | some cur =>
              cases hl : lookupRef st.refs cur.id with
              | some r =>
                  by_cases hc : r.cancelled = true
                  · left
                    simp only [applyEvent, hf, hg, hl, if_pos hc]
                  · right
                    refine ⟨pos, cur,
                      { cur with progress := clampPercent (if p ≤ 1 then p * 100 else p) },
                      hg, ?_, le_refl _⟩
                    simp only [applyEvent, hf, hg, hl, if_neg hc]
              | none =>
                  right
                  refine ⟨pos, cur,
                    { cur with progress := clampPercent (if p ≤ 1 then p * 100 else p) },
                    hg, ?_, le_refl _⟩
                  simp only [applyEvent, hf, hg, hl]
  | obj e =>
      cases ht : targetIdx e st.tasks with
      | none =>
          left
          simp only [applyEvent, ht]
      | some pos =>
          cases hg : st.tasks.get? pos with
          | none =>
              left
              simp only [applyEvent, ht, hg]
          | some cur =>
              cases hl : lookupRef st.refs cur.id with
              | some r =>
                  by_cases hc : r.cancelled = true
                  · left
                    simp only [applyEvent, ht, hg, hl, if_pos hc]
                  · right
                    refine ⟨pos, cur, (applyObj now e cur r).1, hg, ?_, ?_⟩
                    · simp only [applyEvent, ht, hg, hl, if_neg hc]
                    · rw [applyObj_uploadedSize]
                      exact accumApply_le _ _ _ _
              | none =>
                  right
                  refine ⟨pos, cur, (applyObj now e cur (freshRef now)).1, hg, ?_, ?_⟩
                  · simp only [applyEvent, ht, hg, hl]
                  · rw [applyObj_uploadedSize]
                    exact accumApply_le _ _ _ _

/-- C1 counterexample: progress is not non-decreasing while Uploading: a
bare numeric event 0.8 sets progress 80, and a following bare numeric
event 0.3 lowers it to 30 on the same still-uploading task. -/
theorem C1_progress_counterexample :
    bare1.tasks.map (fun t => t.progress) = [80] ∧
    bare1.tasks.map (fun t => t.status) = [UStatus.uploading] ∧
    bare2.tasks.map (fun t => t.progress) = [30] ∧
    bare2.tasks.map (fun t => t.status) = [UStatus.uploading] ∧
    (30 : ℚ) < 80 := by
  norm_num +decide [bare2, bare1, runStart, startUpload, initialState, applyEvent,
    findLastUploadingIdx, lookupRef, setRef, freshRef, clampPercent]

/-- C1 amended: across every progress event (bare numeric or structured)
the uploadedSize of every task is non-decreasing; the progress percent
is not (a bare numeric or percent-only event overwrites it and can lower
it, as the counterexample shows). -/
theorem C1_uploadedSize_monotone (now : ℚ) (payload : UploadPayload) (st : ProviderState)
    (i : Nat) (t t' : UploadTask)
    (ht : st.tasks.get? i = some t)
    (ht' : (applyEvent now payload st).tasks.get? i = some t') :
    t.uploadedSize ≤ t'.uploadedSize := by
  rcases applyEvent_tasks_shape now payload st with h | ⟨pos, cur, u, hg, hset, hle⟩
  · rw [h, ht] at ht'
    injection ht' with ht'
    rw [ht']
  · rw [hset] at ht'
    by_cases hip : i = pos
    · subst hip
      rw [ht] at hg
      injection hg with hg
      rw [List.get?_eq_getElem?] at ht ht'
      have hlt : i < st.tasks.length := (List.getElem?_eq_some.mp ht).1
      rw [List.getElem?_set_eq_of_lt u hlt] at ht'
      injection ht' with ht'
      rw [hg, ← ht']
      exact hle
    · rw [List.get?_eq_getElem?] at ht ht'
      rw [List.getElem?_set_ne (fun hpe => hip hpe.symm)] at ht'
      rw [ht] at ht'
      injection ht' with ht'
      rw [ht']

/-- C1 witness: monotone uploadedSize instantiated on the concrete run:
the completed-by-bytes event raises the task's uploadedSize from 0 to
1000. -/
theorem C1_uploadedSize_monotone_witness :
    runStart.tasks.get? 0 =
      some { id := "t1", filePath := "a.bin", remoteFileName := "a.bin",
             status := UStatus.uploading, progress := 0, uploadedSize := 0, totalSize := 0 } ∧
    ∃ t', (applyEvent 100
        (.obj { id := some "t1", uploaded := some 1000, total := some 1000 }) runStart).tasks.get? 0 =
        some t' ∧ (0 : ℚ) ≤ t'.uploadedSize := by
  have h0 : runStart.tasks.get? 0 =
      some { id := "t1", filePath := "a.bin", remoteFileName := "a.bin",
             status := UStatus.uploading, progress := 0, uploadedSize := 0, totalSize := 0 } := by
    norm_num [runStart, startUpload, initialState]
  have h1 : comp1.tasks.get? 0 =
      some ((comp1.tasks.get
        ⟨0, by norm_num +decide [comp1, runStart, startUpload, initialState, applyEvent,
          targetIdx, strTruthy, findIdxQ, findLastUploadingIdx, lookupRef, setRef,
          freshRef, applyObj, totalBytesOf, accumApply, accumStep, emaUpdate, pruneRing,
          windowAvg, chooseEstimator, computeEta, normalizePercent, percentFallback,
          clampPercent, MIN_DT, WINDOW_SEC, WARM_MIN_SAMPLES, WARM_MIN_BYTES,
          FREEZE_REMAIN, EMA_ALPHA]⟩)) := by
    rw [List.get?_eq_get]
  refine ⟨h0, _, h1, ?_⟩
  exact le_trans (le_refl 0) (C1_uploadedSize_monotone 100
    (.obj { id := some "t1", uploaded := some 1000, total := some 1000 }) runStart 0 _ _ h0 h1)

/-! ### C10 -/

/-- C10: a bare numeric event is a pure frame update: if no task is
uploading the state is unchanged; otherwise the targeted position is the
last (most recently appended) uploading task, the refs and the
completion log are unchanged, every other task is untouched, and the
targeted task either is untouched (its ref was cancelled) or differs
only in its progress field, set to the clamped percent. -/
theorem C10_bare_numeric_frame (now : ℚ) (p : ℚ) (st : ProviderState) :
    (findLastUploadingIdx st.tasks = none → applyEvent now (.num p) st = st) ∧
    (∀ pos, findLastUploadingIdx st.tasks = some pos →
      (applyEvent now (.num p) st).refs = st.refs ∧
      (applyEvent now (.num p) st).completedEvents = st.completedEvents ∧
      ∃ cur, st.tasks.get? pos = some cur ∧ cur.status = UStatus.uploading ∧
        (∀ j : Nat, j ≠ pos → (applyEvent now (.num p) st).tasks[j]? = st.tasks[j]?) ∧
        ((applyEvent now (.num p) st).tasks[pos]? = some cur ∨
          (applyEvent now (.num p) st).tasks[pos]? =
            some { cur with progress := clampPercent (if p ≤ 1 then p * 100 else p) }) ∧
        (∀ (j : Nat) (t : UploadTask), pos < j → st.tasks[j]? = some t →
          t.status ≠ UStatus.uploading)) := by
  constructor
  · intro hf
    simp only [applyEvent, hf]
  · intro pos hf
    obtain ⟨cur, hcur, hs⟩ := findLastUploadingIdx_spec st.tasks pos hf
    have hget : st.tasks.get? pos = some cur := by
      rw [List.get?_eq_getElem?]
      exact hcur
    have hlt : pos < st.tasks.length := (List.getElem?_eq_some.mp hcur).1
    cases hl : lookupRef st.refs cur.id with
    | some r =>
        by_cases hc : r.cancelled = true
        · have hst : applyEvent now (.num p) st = st := by
            simp only [applyEvent, hf, hget, hl, if_pos hc]
          refine ⟨by rw [hst], by rw [hst], cur, hget, hs, ?_, ?_, ?_⟩
          · intro j _
            rw [hst]
          · rw [hst]
            exact Or.inl hcur
          · exact findLastUploadingIdx_last st.tasks pos hf
        · have hst : (applyEvent now (.num p) st).tasks =
              st.tasks.set pos { cur with progress := clampPercent (if p ≤ 1 then p * 100 else p) } := by
            simp only [applyEvent, hf, hget, hl, if_neg hc]
          have hrefs : (applyEvent now (.num p) st).refs = st.refs := by
            simp only [applyEvent, hf, hget, hl, if_neg hc]
          have hev : (applyEvent now (.num p) st).completedEvents = st.completedEvents := by
            simp only [applyEvent, hf, hget, hl, if_neg hc]
          refine ⟨hrefs, hev, cur, hget, hs, ?_, ?_, ?_⟩
          · intro j hj
            rw [hst]
            exact List.getElem?_set_ne (fun hpe => hj hpe.symm)
          · rw [hst]
            exact Or.inr (List.getElem?_set_eq_of_lt _ hlt)
          · exact findLastUploadingIdx_last st.tasks pos hf
    | none =>
        have hst : (applyEvent now (.num p) st).tasks =
            st.tasks.set pos { cur with progress := clampPercent (if p ≤ 1 then p * 100 else p) } := by
          simp only [applyEvent, hf, hget, hl]
        have hrefs : (applyEvent now (.num p) st).refs = st.refs := by
          simp only [applyEvent, hf, hget, hl]
        have hev : (applyEvent now (.num p) st).completedEvents = st.completedEvents := by
          simp only [applyEvent, hf, hget, hl]
        refine ⟨hrefs, hev, cur, hget, hs, ?_, ?_, ?_⟩
        · intro j hj
          rw [hst]
          exact List.getElem?_set_ne (fun hpe => hj hpe.symm)
        · rw [hst]
          exact Or.inr (List.getElem?_set_eq_of_lt _ hlt)
        · exact findLastUploadingIdx_last st.tasks pos hf

/-- C10 witness: with two tasks (t1, then t2, both uploading) the bare
numeric event 0.5 targets index 1 (the most recent uploading task),
leaves refs, the log and task 0 untouched, and only sets progress 50. -/
theorem C10_bare_numeric_frame_witness :
    findLastUploadingIdx twoTasks.tasks = some 1 ∧
    (applyEvent 100 (.num (1 / 2)) twoTasks).refs = twoTasks.refs ∧
    (applyEvent 100 (.num (1 / 2)) twoTasks).completedEvents = twoTasks.completedEvents ∧
    (applyEvent 100 (.num (1 / 2)) twoTasks).tasks[0]? = twoTasks.tasks[0]? := by
  have hf : findLastUploadingIdx twoTasks.tasks = some 1 := by
    norm_num +decide [twoTasks, runStart, startUpload, initialState, findLastUploadingIdx]
  obtain ⟨hrefs, hev, _, _, _, hothers, _, _⟩ :=
    (C10_bare_numeric_frame 100 (1 / 2) twoTasks).2 1 hf
  exact ⟨hf, hrefs, hev, hothers 0 (by norm_num)⟩

end Firestarter
